import Mathlib

set_option maxRecDepth 16384

/-!
Verification development for the news-synapse-agent repository.

The Python sources under `src/` are shallowly embedded below:
pure functions become Lean functions, raising code returns `Except PyExc`,
and the outcomes of outbound network calls (the LLM chat-completion
endpoint and the MediaCloud news search) are supplied by an explicit
environment, since they are the only sources of nondeterminism in the program.
-/

namespace NewsSynapse

/-- Python exception values relevant to the embedded code.  Every
constructor models a subclass of `Exception` (so the top-level
`except Exception` handler in `process_query` catches all of them);
`rateLimited` models a rate-limit error raised by the news collaborator,
which the code treats like any other exception. -/
inductive PyExc where
  | valueError (msg : String)
  | keyError (msg : String)
  | typeError (msg : String)
  | attributeError (msg : String)
  | httpError (status : Nat)
  | jsonDecodeError (msg : String)
  | connectionError (msg : String)
  | timeoutError (msg : String)
  | rateLimited (msg : String)
  | mcException (msg : String)
  | otherError (msg : String)
deriving DecidableEq, Repr

/-- Python `str(e)` of an exception: the carried message
(for HTTP errors, a rendering holding the status code). -/
def PyExc.str : PyExc → String
  | .valueError m => m
  | .keyError m => m
  | .typeError m => m
  | .attributeError m => m
  | .httpError s => "HTTP Error " ++ toString s
  | .jsonDecodeError m => m
  | .connectionError m => m
  | .timeoutError m => m
  | .rateLimited m => m
  | .mcException m => m
  | .otherError m => m

/-- Python values as they flow through this program: JSON-like data plus
`datetime.datetime` and `datetime.date` objects.  A `datetime` carries both
its `strftime("%Y-%m-%d")` rendering and its `isoformat()` rendering; a
the two renderings of a `date` object coincide, so it carries one string. -/
inductive PyVal where
  | str (s : String)
  | int (n : Int)
  | bool (b : Bool)
  | date (iso : String)
  | datetime (dateIso : String) (iso : String)
  | none
  | list (xs : List PyVal)
  | dict (kvs : List (String × PyVal))
deriving Repr

/-- `serialize_datetime_objects` from `agent.py`: convert `datetime` and
`date` objects to their ISO strings, recursing through dicts and lists.
(The `hasattr(obj, "__dict__")` branch concerns arbitrary Python objects,
which do not occur in the value universe this program passes through it.) -/
def serializeDatetimeObjects : PyVal → PyVal
  | .datetime _ iso => .str iso
  | .date iso => .str iso
  | .dict kvs => .dict (kvs.attach.map (fun p => (p.1.1, serializeDatetimeObjects p.1.2)))
  | .list xs => .list (xs.attach.map (fun p => serializeDatetimeObjects p.1))
  | v => v
decreasing_by
  · rcases p with ⟨⟨k, v⟩, hm⟩
    have h := List.sizeOf_lt_of_mem hm
    simp only [Prod.mk.sizeOf_spec] at h
    simp only [PyVal.dict.sizeOf_spec]
    omega
  · rcases p with ⟨v, hm⟩
    have h := List.sizeOf_lt_of_mem hm
    simp only [PyVal.list.sizeOf_spec]
    omega

/-- Python truthiness for the values this program tests with `if`. -/
def pyTruthy : PyVal → Bool
  | .str s => s != ""
  | .int n => n != 0
  | .bool b => b
  | .none => false
  | .list xs => !xs.isEmpty
  | .dict kvs => !kvs.isEmpty
  | _ => true

/-- Python `min` on integers. -/
def pyMin (a b : Int) : Int := if a ≤ b then a else b

/-- Python list slicing `l[:k]` (negative `k` counts from the end). -/
def pySliceTo (l : List PyVal) (k : Int) : List PyVal :=
  if 0 ≤ k then l.take k.toNat else l.take (l.length - (-k).toNat)

/-- Whether the first list is a prefix of the second. -/
def isPrefixChars : List Char → List Char → Bool
  | [], _ => true
  | _ :: _, [] => false
  | a :: as, b :: bs => a == b && isPrefixChars as bs

/-- Substring search over character lists. -/
def containsAux (needle : List Char) : List Char → Bool
  | [] => needle.isEmpty
  | h :: t => isPrefixChars needle (h :: t) || containsAux needle t

/-- Python substring test `needle in haystack`. -/
def containsSubstr (haystack needle : String) : Bool :=
  containsAux needle.data haystack.data

/-- Left-to-right non-overlapping replacement over character lists,
with the haystack length as structural fuel. -/
def replaceAux (old nw : List Char) : List Char → Nat → List Char
  | l, 0 => l
  | [], _ => []
  | h :: t, Nat.succ n =>
    if isPrefixChars old (h :: t) then nw ++ replaceAux old nw ((h :: t).drop old.length) n
    else h :: replaceAux old nw t n

/-- Python `s.replace(old, new)`: every non-overlapping occurrence,
left to right.  (All call sites in this program use nonempty `old`.) -/
def pyReplace (s old nw : String) : String :=
  if old.data.isEmpty then s
  else String.mk (replaceAux old.data nw.data s.data s.data.length)

/-- Drop leading whitespace from a character list. -/
def dropLeadingWs : List Char → List Char
  | [] => []
  | h :: t => if h.isWhitespace then dropLeadingWs t else h :: t

/-- Python `s.strip()`: remove leading and trailing whitespace. -/
def pyStrip (s : String) : String :=
  String.mk ((dropLeadingWs (dropLeadingWs s.data).reverse).reverse)

/-- Python `s.lower()` (ASCII case mapping, which covers every string
this program lowercases). -/
def pyLower (s : String) : String :=
  String.mk (s.data.map Char.toLower)

/-!
## cultural_bridge.py — OffensiveLanguageDetector

An `AnalysisResult` (`detected_issues`) is an insertion-ordered mapping
from matched category name to the list of matched pattern strings,
embedded as an association list.  The static suggestion table
(`_build_alternative_suggestions`) is configuration data; it is passed
as a parameter whose entries carry the two per-category lists.
-/

/-- One entry of the `alternative_suggestions` table. -/
structure SuggEntry where
  specific_examples : List String
  general_guidance : List String
deriving DecidableEq, Repr

/-- The three ordered suggestion lists built by `suggest_alternatives`. -/
structure SuggestionSet where
  specific_examples : List String
  general_guidance : List String
  philosophical_insights : List String
deriving DecidableEq, Repr

/-- Python `list(dict.fromkeys(l))`: deduplicate keeping first occurrences. -/
def dedupKeepFirst (l : List String) : List String :=
  l.foldl (fun acc x => if acc.contains x then acc else acc ++ [x]) []

/-- The four strings unconditionally extended onto `philosophical_insights`
in `suggest_alternatives` (cultural_bridge.py lines 206-211). -/
def philosophicalInsightsFixed : List String :=
  [ "Consider the humanity and dignity of all people involved"
  , "Ask whose voices and experiences are being centered or marginalized"
  , "Examine how language can perpetuate or challenge systems of oppression"
  , "Focus on building understanding rather than reinforcing divisions" ]

/-- `OffensiveLanguageDetector.suggest_alternatives`: for each detected
category present in the table, extend the example and guidance lists;
always extend the fixed philosophical insights; deduplicate each list
keeping first-seen order.  (The `text` argument is unused by the body,
as in the source.) -/
def suggestAlternatives (table : List (String × SuggEntry)) (text : String)
    (detected : List (String × List String)) : SuggestionSet :=
  let se := detected.foldl (fun acc p =>
    match table.lookup p.1 with
    | some d => acc ++ d.specific_examples
    | Option.none => acc) []
  let gg := detected.foldl (fun acc p =>
    match table.lookup p.1 with
    | some d => acc ++ d.general_guidance
    | Option.none => acc) []
  let pi := ([] : List String) ++ philosophicalInsightsFixed
  { specific_examples := dedupKeepFirst se
    general_guidance := dedupKeepFirst gg
    philosophical_insights := dedupKeepFirst pi }

/-- `len(list(detected_issues.values())[0])` for a nonempty mapping. -/
def firstValueLength : List (String × List String) → Nat
  | [] => 0
  | p :: _ => p.2.length

/-- `OffensiveLanguageDetector._assess_severity` (cultural_bridge.py
lines 234-243): "none" for the empty mapping; "mild" when exactly one
category matched and its (first) pattern list has exactly one entry;
"moderate" when at most two categories matched; "severe" otherwise. -/
def assessSeverity (detected : List (String × List String)) : String :=
  if detected.length = 0 then "none"
  else if detected.length = 1 && firstValueLength detected = 1 then "mild"
  else if detected.length ≤ 2 then "moderate"
  else "severe"

/-- The record returned by `OffensiveLanguageDetector.filter_and_suggest`. -/
structure FilterResult where
  has_offensive_content : Bool
  detected_issues : List (String × List String)
  suggestions : SuggestionSet
  severity : String
deriving DecidableEq, Repr

/-- `OffensiveLanguageDetector.filter_and_suggest`, factored over the
`detected` mapping that `detect_offensive_language(text)` produced (the
regex front-end is deterministic string matching; the claims below
quantify over its possible outputs, any ordered category-to-patterns
mapping, the empty one corresponding to text with no matches).
Note the source computes the suggestions via `suggest_alternatives`
only `if detected`, and otherwise returns three empty lists. -/
def filterAndSuggestFrom (table : List (String × SuggEntry)) (text : String)
    (detected : List (String × List String)) : FilterResult :=
  { has_offensive_content := !detected.isEmpty
    detected_issues := detected
    suggestions :=
      if !detected.isEmpty then suggestAlternatives table text detected
      else { specific_examples := [], general_guidance := []
             philosophical_insights := [] }
    severity := assessSeverity detected }

/-!
## news_bridge.py — NewsBridge

The outcome of the one outbound MediaCloud request is an explicit
environment value.  `datetime.now()`, `random.randint` and the Python
string `hash` are nondeterministic inputs of `_create_mock_stories`;
a `MockEnv` supplies the per-story rendered dates and the hash value,
while the templates, titles, urls and field layout follow the source.
-/

/-- Nondeterministic inputs of `_create_mock_stories`: for story index
`i`, the rendered `strftime("%Y-%m-%d")` and `isoformat()` of
`base_date - timedelta(days=i)`, and `hash(s) % 1000000`. -/
structure MockEnv where
  storyDateStr : Nat → String
  storyDateIso : Nat → String
  hashMod : String → Nat

/-- One entry of the `templates` list in `_create_mock_stories`. -/
structure MockTemplate where
  title_template : String
  media_name : String
  media_url : String

/-- The four mock templates (news_bridge.py lines 151-172). -/
def mockTemplates : List MockTemplate :=
  [ { title_template := "Building Bridges: \x7b\x7d Initiatives Foster Cross-Cultural Understanding"
    , media_name := "Global Unity News", media_url := "globalunitynews.com" }
  , { title_template := "Dialogue Across Divides: How \x7b\x7d Communities Find Common Ground"
    , media_name := "Bridge Builder Times", media_url := "bridgebuildertimes.org" }
  , { title_template := "Beyond Stereotypes: \x7b\x7d Stories Challenge Traditional Narratives"
    , media_name := "Nuanced Perspectives", media_url := "nuancedperspectives.net" }
  , { title_template := "Collaborative Solutions: \x7b\x7d Cooperation Leads to Breakthrough"
    , media_name := "Cooperation Today", media_url := "cooperationtoday.com" } ]

/-- Python `str.split()` with no argument: split on whitespace runs,
discarding empty fragments. -/
def pySplit (s : String) : List String :=
  (s.split Char.isWhitespace).filter (fun t => t != "")

/-- Python `str.title()`: uppercase every letter that follows a
non-letter, lowercase the rest. -/
def pyTitle (s : String) : String :=
  String.mk (s.data.foldl
    (fun (acc : List Char × Bool) c =>
      (acc.1 ++ [if acc.2 then c.toLower else c.toUpper], c.isAlpha))
    ([], false)).1

/-- `NewsBridge._create_mock_stories` (news_bridge.py lines 141-192):
fabricates up to `min(count, 4)` template stories for the query. -/
def createMockStories (menv : MockEnv) (query : String) (count : Int) : List PyVal :=
  let n := (pyMin count (mockTemplates.length : Int)).toNat
  (List.range n).map (fun i =>
    let template := mockTemplates.getD i
      { title_template := "", media_name := "", media_url := "" }
    let topic := match pySplit query with
      | [] => "Global"
      | w :: _ => pyTitle w
    PyVal.dict
      [ ("stories_id", .str ("mock_" ++ toString (menv.hashMod (query ++ toString i))))
      , ("title", .str (template.title_template.replace "\x7b\x7d" topic))
      , ("url", .str ("https://" ++ template.media_url ++ "/articles/mock-story-" ++ toString i))
      , ("publish_date", .str (menv.storyDateStr i))
      , ("media_name", .str template.media_name)
      , ("media_url", .str template.media_url)
      , ("language", .str "en")
      , ("indexed_date", .str (menv.storyDateIso i))
      , ("ap_syndicated", .bool false) ])

/-- `requests.Response.raise_for_status()`: raises for 4xx/5xx codes. -/
def raiseForStatus (status : Nat) : Except PyExc Unit :=
  if 400 ≤ status then .error (.httpError status) else .ok ()

/-- `dict.get(key, default)` on an association list. -/
def dictGetD (kvs : List (String × PyVal)) (key : String) (d : PyVal) : PyVal :=
  (kvs.lookup key).getD d

/-- The story formatting in `_make_api_request_direct` (lines 113-126):
fields are copied with `.get` defaults; a non-dict story raises
(`.get` is missing), which the surrounding handler converts to mocks. -/
def formatDirectStory (story : PyVal) : Except PyExc PyVal :=
  match story with
  | .dict kvs => .ok (.dict
      [ ("stories_id", dictGetD kvs "id" (.str ""))
      , ("title", dictGetD kvs "title" (.str ""))
      , ("url", dictGetD kvs "url" (.str ""))
      , ("publish_date", dictGetD kvs "publish_date" (.str ""))
      , ("media_name", dictGetD kvs "media_name" (.str ""))
      , ("media_url", dictGetD kvs "media_url" (.str ""))
      , ("language", dictGetD kvs "language" (.str "en"))
      , ("indexed_date", dictGetD kvs "indexed_date" (.str ""))
      , ("ap_syndicated", .bool false) ])
  | _ => .error (.attributeError "story object has no attribute get")

/-- Extracting and formatting `data["sample"]` in the direct path; shape
errors model the exceptions Python raises while processing the response
(all of which the handler converts to mock stories). -/
def extractDirectStories (data : PyVal) : Except PyExc (List PyVal) :=
  match data with
  | .dict kvs =>
    match dictGetD kvs "sample" (.list []) with
    | .list items => items.mapM formatDirectStory
    | _ => .error (.typeError "sample value is not a story list")
  | _ => .error (.attributeError "response json has no attribute get")

/-- Outcome of the `requests.post` in `_make_api_request_direct`:
a raised transport error, or a status code with the result of
`response.json()` (whose `.error` case covers undecodable bodies). -/
inductive DirectOutcome where
  | timeout
  | reqError (msg : String)
  | resp (status : Nat) (body : Except PyExc PyVal)

/-- The `try` body of `_make_api_request_direct` (lines 97-129): 403/401
return mock stories directly; other non-2xx raise via
`raise_for_status`; a 200 body is decoded and formatted. -/
def directTryBody (o : DirectOutcome) (query : String) (menv : MockEnv) :
    Except PyExc (List PyVal × Option PyVal) :=
  match o with
  | .timeout => .error (.timeoutError "API request timed out")
  | .reqError m => .error (.connectionError m)
  | .resp status body =>
    if status = 403 then .ok (createMockStories menv query 3, Option.none)
    else if status = 401 then .ok (createMockStories menv query 3, Option.none)
    else
      match raiseForStatus status with
      | .error e => .error e
      | .ok _ =>
        match body with
        | .error e => .error e
        | .ok data => (extractDirectStories data).map (fun st => (st, Option.none))

/-- `NewsBridge._make_api_request_direct`: every exception raised by the
`try` body (timeout, request failure, HTTP error, processing error) is
caught and converted to mock stories (lines 131-139). -/
def makeApiRequestDirect (o : DirectOutcome) (query : String) (menv : MockEnv) :
    List PyVal × Option PyVal :=
  match directTryBody o query menv with
  | .ok r => r
  | .error _ => (createMockStories menv query 3, Option.none)

/-- Python `a or b` on an optional integer (`limit or 3`). -/
def pyOrInt (a : Option Int) (b : Int) : Int :=
  match a with
  | some x => if x != 0 then x else b
  | Option.none => b

/-- `.strftime("%Y-%m-%d")` on a value expected to be a date/datetime. -/
def pyStrftimeYmd : PyVal → Except PyExc String
  | .date iso => .ok iso
  | .datetime dateIso _ => .ok dateIso
  | _ => .error (.attributeError "object has no attribute strftime")

/-- `.isoformat()` on a value expected to be a date/datetime. -/
def pyIsoformat : PyVal → Except PyExc String
  | .date iso => .ok iso
  | .datetime _ iso => .ok iso
  | _ => .error (.attributeError "object has no attribute isoformat")

/-- The story formatting in `_make_api_request_with_client` (lines 36-49):
dates are rendered with `strftime`/`isoformat` when truthy, else "". -/
def formatClientStory (story : PyVal) : Except PyExc PyVal :=
  match story with
  | .dict kvs => do
    let pd := dictGetD kvs "publish_date" .none
    let pdStr ← if pyTruthy pd then pyStrftimeYmd pd else pure ""
    let ix := dictGetD kvs "indexed_date" .none
    let ixStr ← if pyTruthy ix then pyIsoformat ix else pure ""
    pure (.dict
      [ ("stories_id", dictGetD kvs "id" (.str ""))
      , ("title", dictGetD kvs "title" (.str ""))
      , ("url", dictGetD kvs "url" (.str ""))
      , ("publish_date", .str pdStr)
      , ("media_name", dictGetD kvs "media_name" (.str ""))
      , ("media_url", dictGetD kvs "media_url" (.str ""))
      , ("language", dictGetD kvs "language" (.str "en"))
      , ("indexed_date", .str ixStr)
      , ("ap_syndicated", .bool false) ])
  | _ => .error (.attributeError "story object has no attribute get")

/-- Outcome of `SearchApi.story_sample` inside
`_make_api_request_with_client`: a story list, a raised `MCException`,
or any other raised exception. -/
inductive ClientOutcome where
  | ok (stories : List PyVal)
  | mcError (msg : String)
  | otherError (msg : String)

/-- The `try` body of `_make_api_request_with_client` (lines 27-52). -/
def clientTryBody (co : ClientOutcome) : Except PyExc (List PyVal × Option PyVal) :=
  match co with
  | .ok stories => (stories.mapM formatClientStory).map (fun fs => (fs, Option.none))
  | .mcError m => .error (.mcException m)
  | .otherError m => .error (.otherError m)

/-- `NewsBridge._make_api_request_with_client`: both `except` clauses
(`MCException` and any other exception) return
`_create_mock_stories(query, limit or 3)` (lines 54-59). -/
def makeApiRequestWithClient (co : ClientOutcome) (query : String) (menv : MockEnv)
    (limit : Option Int) : List PyVal × Option PyVal :=
  match clientTryBody co with
  | .ok r => r
  | .error _ => (createMockStories menv query (pyOrInt limit 3), Option.none)

/-- Which request path `_make_api_request` takes (`use_api_client`),
together with the outcome of that path. -/
inductive ApiOutcome where
  | client (co : ClientOutcome)
  | direct (o : DirectOutcome)

/-- `NewsBridge._make_api_request`: the client path is called with
`limit = 5`; otherwise the direct path runs. -/
def makeApiRequest (ao : ApiOutcome) (query : String) (menv : MockEnv) :
    List PyVal × Option PyVal :=
  match ao with
  | .client co => makeApiRequestWithClient co query menv (some 5)
  | .direct o => makeApiRequestDirect o query menv

/-- The default bridge-building query of `search_nuanced_news`. -/
def defaultBridgeQuery : String :=
  "dialogue OR \"common ground\" OR \"across divides\" OR \"nuanced\" OR \"complexity\" OR \"beyond polarization\" OR \"cultural bridge\" OR \"challenge stereotypes\" OR \"gray area\" OR \"non-binary\" OR \"multiple perspectives\" OR \"mutual understanding\" OR \"empathy\" OR \"bridge the gap\""

/-- The bridge terms appended to a custom query in `search_nuanced_news`. -/
def nuancedBridgeTerms : String :=
  "dialogue OR \"common ground\" OR \"multiple perspectives\" OR \"nuanced\" OR \"bridge\" OR \"understanding\""

/-- `NewsBridge.search_nuanced_news` (lines 194-219): build the search
query, make the one API request, and return `stories[:max_stories]`.
`days_back` only shapes the request dates, which are part of the
environment-supplied outcome. -/
def searchNuancedNews (ao : ApiOutcome) (menv : MockEnv) (query : Option String)
    (daysBack maxStories : Int) : List PyVal :=
  let searchQuery := match query with
    | Option.none => defaultBridgeQuery
    | some q => "(" ++ q ++ ") AND (" ++ nuancedBridgeTerms ++ ")"
  let stories := (makeApiRequest ao searchQuery menv).1
  pySliceTo stories maxStories

/-!
## agent.py — tool invoker and query orchestrator

`process_query` is embedded over an environment that supplies the
outcomes of the outbound calls: the chat-completion requests (an
attempt-indexed stream for the initial tools request, one outcome each
for the fallback, natural and final requests) and the news collaborator
(`NewsBridge.search_nuanced_news`), abstracted as a function from its
arguments to a result or a raised exception.  The static system prompt
and the pure `generate_philosophical_inquiry` text are environment
strings, since no claim inspects them and they cannot raise.  A run
also produces a trace of the outbound requests it performed.
-/

/-- The parsed argument mapping of a `search_news` tool call. -/
structure NewsArgs where
  query : Option String := Option.none
  daysBack : Option Int := Option.none
  maxStories : Option Int := Option.none
  collectionIds : Option (List Int) := Option.none
deriving DecidableEq, Repr

/-- The `arguments` JSON of a tool call, as `json.loads(arguments or "{}")`
sees it: absent/empty (parsed as the empty mapping), a parsed mapping,
or undecodable text (`json.loads` raises). -/
inductive ArgsField where
  | absent
  | ok (a : NewsArgs)
  | malformed (msg : String)
deriving DecidableEq, Repr

/-- One entry of the `tool_calls` array of the model message. -/
structure ToolCall where
  id : String
  name : String
  args : ArgsField
deriving DecidableEq, Repr

/-- The `choices[0].message` of a decoded chat-completion response. -/
structure LLMMsg where
  content : String
  toolCalls : List ToolCall
deriving DecidableEq, Repr

/-- A conversation message as threaded through `messages_history`.
The JSON-string content of a tool result is carried structurally. -/
inductive Msg where
  | system (content : String)
  | user (content : String)
  | assistant (m : LLMMsg)
  | tool (toolCallId : String) (content : PyVal)

/-- Outcome of one `requests.post` to the chat-completion endpoint:
a raised transport error, or a status code together with the decoded
message (`.error` covers bodies on which `resp.json()` or the
`choices[0].message` extraction raises). -/
inductive CallResult where
  | raise (e : PyExc)
  | resp (status : Nat) (body : Except PyExc LLMMsg)

/-- Trace of a run: each outbound LLM request (with or without the tool
schema, and with its message payload) and each collaborator search call
(with the arguments `search_nuanced_news` received). -/
inductive TraceEv where
  | llmCall (withTools : Bool) (messages : List Msg)
  | searchCall (query : Option String) (daysBack maxStories : Int)

/-- The news collaborator as the orchestrator sees it: the behavior of
`news_bridge.search_nuanced_news(query, days_back, max_stories)`. -/
structure NewsBridgeObj where
  search : Option String → Int → Int → Except PyExc (List PyVal)

/-- The environment of one `process_query` run. -/
structure Env where
  query : String
  systemPrompt : String
  inquiry : String
  initial : Nat → CallResult
  fallback : CallResult
  natural : CallResult
  final : CallResult
  bridge : Option NewsBridgeObj

/-- `format_error_response` from agent.py (lines 62-72); the leading
characters reproduce the source bytes. -/
def formatErrorResponse (e : PyExc) : String :=
  "‚ö†Ô∏è An error occurred while processing your request:\n\n"
  ++ e.str
  ++ "\n\nYou can try:\n1. Waiting a few moments and trying again\n2. Checking your internet connection\n3. Verifying the request parameters"

/-- `NEWS_TOOL_NAMES` from agent.py. -/
def newsToolNames : List String := ["search_news"]

/-- The collaborator search together with slicing and serialization
applied to its result (call_news_tool lines 96-100), tracing the call. -/
def runBridgeSearch (nb : NewsBridgeObj) (q : Option String) (db ms : Int) :
    Except PyExc (List PyVal) × List TraceEv :=
  match nb.search q db ms with
  | .ok result =>
    (.ok ((pySliceTo result 5).map serializeDatetimeObjects), [TraceEv.searchCall q db ms])
  | .error e => (.error e, [TraceEv.searchCall q db ms])

/-- `call_news_tool` from agent.py (lines 74-109).  The unconfigured
bridge, an unsupported function name, a truthy `collection_ids` (the
read of `news_bridge.collection_ids` raises `AttributeError`, since
`NewsBridge.__init__` never defines that attribute), and any
collaborator exception are all caught by the `except` clause and
re-raised as `ValueError("Failed to fetch news data: ...")` carrying
the original error text.  Exactly one collaborator call is made. -/
def callNewsToolT (bridge : Option NewsBridgeObj) (funcName : String) (args : NewsArgs) :
    Except PyExc (List PyVal) × List TraceEv :=
  let inner : Except PyExc (List PyVal) × List TraceEv :=
    match bridge with
    | Option.none =>
      (.error (.valueError "MediaCloud API key not configured. Please set MEDIACLOUD_API_KEY in your environment."), [])
    | some nb =>
      if funcName = "search_news" then
        let daysBack := args.daysBack.getD 7
        let maxStories := pyMin (args.maxStories.getD 5) 5
        match args.collectionIds with
        | some cids =>
          if !cids.isEmpty then
            (.error (.attributeError "NewsBridge object has no attribute collection_ids"), [])
          else runBridgeSearch nb args.query daysBack maxStories
        | Option.none => runBridgeSearch nb args.query daysBack maxStories
      else (.error (.valueError ("Unsupported function call: " ++ funcName)), [])
  match inner with
  | (.ok r, tr) => (.ok r, tr)
  | (.error e, tr) => (.error (.valueError ("Failed to fetch news data: " ++ e.str)), tr)

/-- A story dict as `NewsBridge` actually produces it: every field a
string except the boolean `ap_syndicated` (news_bridge.py lines 38-48,
115-125 and 178-188). -/
structure FormattedStory where
  stories_id : String
  title : String
  url : String
  publish_date : String
  media_name : String
  media_url : String
  language : String
  indexed_date : String
  ap_syndicated : Bool
deriving DecidableEq, Repr

/-- The dict a `FormattedStory` stands for. -/
def FormattedStory.toPyVal (s : FormattedStory) : PyVal :=
  .dict
    [ ("stories_id", .str s.stories_id)
    , ("title", .str s.title)
    , ("url", .str s.url)
    , ("publish_date", .str s.publish_date)
    , ("media_name", .str s.media_name)
    , ("media_url", .str s.media_url)
    , ("language", .str s.language)
    , ("indexed_date", .str s.indexed_date)
    , ("ap_syndicated", .bool s.ap_syndicated) ]

/-- Python `str()` rendering used by the f-string story formatter.  The
story fields this program displays are strings; container renderings
(unreached on its data) are abbreviated. -/
def pyStrSimple : PyVal → String
  | .str s => s
  | .int n => toString n
  | .bool b => if b then "True" else "False"
  | .none => "None"
  | .date iso => iso
  | .datetime _ iso => iso
  | .list _ => "<list>"
  | .dict _ => "<dict>"

/-- The lines of one story in the manual Markdown rendering (agent.py lines
161-171 and 227-237): non-dict entries contribute nothing but still
advance the enumeration index. -/
def storyLine (i : Nat) (story : PyVal) : String :=
  match story with
  | .dict kvs =>
    "**" ++ toString i ++ ". " ++ pyStrSimple (dictGetD kvs "title" (.str "No Title")) ++ "**\n"
    ++ "- **Source:** " ++ pyStrSimple (dictGetD kvs "media_name" (.str "Unknown source")) ++ "\n"
    ++ "- **Date:** " ++ pyStrSimple (dictGetD kvs "publish_date" (.str "Unknown date")) ++ "\n"
    ++ "- **Link:** " ++ pyStrSimple (dictGetD kvs "url" (.str "No URL")) ++ "\n\n"
  | _ => ""

/-- The templated Markdown list built from manually fetched stories. -/
def formatStories (stories : List PyVal) : String :=
  "I found these relevant news stories for you:\n\n"
  ++ String.join ((List.enumFrom 1 stories).map (fun p => storyLine p.1 p.2))

/-- The news-intent keywords checked in the HTTP-500 fallback branch
(agent.py line 150). -/
def newsKeywords500 : List String :=
  ["search", "find", "news", "stories", "article", "media", "latest", "recent"]

/-- The news-intent keywords checked in the raw-tool-syntax branch
(agent.py line 215). -/
def newsKeywordsMarker : List String :=
  ["search", "find", "news", "stories", "article", "media", "latest", "recent",
   "china", "usa", "latam"]

/-- `any(keyword in query.lower() for keyword in ks)`. -/
def hasAnyKeyword (ks : List String) (query : String) : Bool :=
  ks.any (fun k => containsSubstr (pyLower query) k)

/-- The raw tool-call leakage markers (agent.py line 213); the escaped
characters reproduce the source bytes. -/
def leakMarkers : List String :=
  [ "tool‚ñÅcalls‚ñÅbegin"
  , "tool_calls_begin"
  , "ÔΩútool‚ñÅcall‚ñÅbeginÔΩú"
  , "tool_call_begin"
  , "<ÔΩútool"
  , "tool‚ñÅsepÔΩú" ]

/-- The filler-phrase stripping of the HTTP-500 branch (agent.py
line 153). -/
def stripQuery500 (q : String) : String :=
  pyStrip (pyReplace (pyReplace (pyReplace (pyReplace (pyLower q)
    "search news about" "") "find stories about" "") "search" "") "news" "")

/-- The filler-phrase stripping of the raw-tool-syntax branch (agent.py
line 218). -/
def stripQueryMarker (q : String) : String :=
  pyStrip (pyReplace (pyReplace (pyReplace (pyReplace (pyReplace (pyReplace (pyLower q)
    "please search news about" "") "search news about" "") "find stories about" "")
    "search" "") "news" "") "about" "")

/-- The search query the leakage branch passes to the tool: the stripped
query, or the original query when stripping leaves nothing. -/
def markerSearchQuery (q : String) : String :=
  let s := stripQueryMarker q
  if s = "" then q else s

/-- The fixed no-stories reply of both manual branches. -/
def notFoundMsg : String :=
  "I searched for news but couldn\x27t find relevant stories at this time. Please try again with different keywords."

/-- The fixed apology reply of the raw-tool-syntax branch. -/
def apologyMsg : String :=
  "I apologize, but there was an issue with processing your request. Please try rephrasing your question or try again."

/-- The technical-difficulties reply (agent.py line 196), carrying the
status code of the initial response. -/
def techDifficulties (status : Nat) : String :=
  "I\x27m experiencing technical difficulties with the AI service (Error "
  ++ toString status ++ "). Please try again in a moment."

/-- The `try` block shared by both manual direct-news branches (agent.py
lines 152-177 and 217-243): strip the query, call the tool, and render
the stories; `some answer` is a `return` from the block, `Option.none`
means the block raised and the handler falls through. -/
def directNewsAttempt (env : Env) (stripFn : String → String) :
    Option String × List TraceEv :=
  let sq0 := stripFn env.query
  let sq := if sq0 = "" then env.query else sq0
  match callNewsToolT env.bridge "search_news" { query := some sq } with
  | (.ok manualResult, tr) =>
    if !manualResult.isEmpty then (some (formatStories manualResult), tr)
    else (some notFoundMsg, tr)
  | (.error _, tr) => (Option.none, tr)

/-- The enriched user content (`enhanced_query`, agent.py line 121). -/
def Env.enhancedQuery (env : Env) : String :=
  env.query ++ "\n\n--- PHILOSOPHICAL ANALYSIS ---\n" ++ env.inquiry

/-- `[system_message, initial_message]`. -/
def Env.baseMessages (env : Env) : List Msg :=
  [Msg.system env.systemPrompt, Msg.user env.enhancedQuery]

/-- The fallback no-tools request of the HTTP-500 branch (agent.py lines
179-196): a 200 response returns its content (decoding errors raise to
the top-level handler); any other status falls through to the
technical-difficulties reply carrying the original status. -/
def fallbackStep (env : Env) (origStatus : Nat) :
    Except PyExc String × List TraceEv :=
  let ev := [TraceEv.llmCall false env.baseMessages]
  match env.fallback with
  | .raise e => (.error e, ev)
  | .resp s body =>
    if s = 200 then
      match body with
      | .error e => (.error e, ev)
      | .ok m => (.ok m.content, ev)
    else (.ok (techDifficulties origStatus), ev)

/-- A no-tools chat-completion request followed by `raise_for_status`,
decoding, and content extraction (the natural and final requests,
agent.py lines 248-262 and 289-301). -/
def simpleLLMCall (cr : CallResult) (msgs : List Msg) :
    Except PyExc String × List TraceEv :=
  let ev := [TraceEv.llmCall false msgs]
  match cr with
  | .raise e => (.error e, ev)
  | .resp status body =>
    match raiseForStatus status with
    | .error e => (.error e, ev)
    | .ok _ =>
      match body with
      | .error e => (.error e, ev)
      | .ok m => (.ok m.content, ev)

/-- The error payload appended as the result of a failed tool (agent.py
lines 281-283). -/
def toolErrorPayload (e : PyExc) (toolName : String) : PyVal :=
  .dict
    [ ("error", .str (formatErrorResponse e))
    , ("status", .str "failed")
    , ("tool", .str toolName) ]

/-- The `try` body of one tool-loop iteration (agent.py lines 269-283):
dispatch on the tool name, and on any exception append the structured
error payload instead. -/
def execToolCallBody (bridge : Option NewsBridgeObj) (tc : ToolCall) (args : NewsArgs) :
    Msg × List TraceEv :=
  if newsToolNames.contains tc.name then
    match callNewsToolT bridge tc.name args with
    | (.ok result, tr) => (Msg.tool tc.id (PyVal.list result), tr)
    | (.error e, tr) => (Msg.tool tc.id (toolErrorPayload e tc.name), tr)
  else
    (Msg.tool tc.id (toolErrorPayload (.valueError ("Unsupported tool: " ++ tc.name)) tc.name), [])

/-- One tool-loop iteration.  `json.loads` of undecodable arguments
happens before the `try` block, so it propagates (to the top-level
handler) instead of becoming an error payload. -/
def execToolCall (bridge : Option NewsBridgeObj) (tc : ToolCall) :
    Except PyExc (Msg × List TraceEv) :=
  match tc.args with
  | .malformed m => .error (.jsonDecodeError m)
  | .absent => .ok (execToolCallBody bridge tc {})
  | .ok a => .ok (execToolCallBody bridge tc a)

/-- The tool loop (agent.py lines 264-287): one result message per tool
call, in order. -/
def runToolLoop (bridge : Option NewsBridgeObj) :
    List ToolCall → Except PyExc (List Msg) × List TraceEv
  | [] => (.ok [], [])
  | tc :: rest =>
    match execToolCall bridge tc with
    | .error e => (.error e, [])
    | .ok (m, tr) =>
      match runToolLoop bridge rest with
      | (.error e, trs) => (.error e, tr ++ trs)
      | (.ok ms, trs) => (.ok (m :: ms), tr ++ trs)

/-- The `try` body of `process_query` (agent.py lines 119-301), returning
the reply or the exception that reaches the top-level handler, plus the
trace of outbound requests. -/
def processQueryE (env : Env) : Except PyExc String × List TraceEv :=
  let baseMsgs := env.baseMessages
  let ev0 := [TraceEv.llmCall true baseMsgs]
  match env.initial 0 with
  | .raise e => (.error e, ev0)
  | .resp status body =>
    if status ≠ 200 then
      if status = 500 then
        if hasAnyKeyword newsKeywords500 env.query then
          match directNewsAttempt env stripQuery500 with
          | (some answer, tr) => (.ok answer, ev0 ++ tr)
          | (Option.none, tr) =>
            let (r, tf) := fallbackStep env status
            (r, ev0 ++ tr ++ tf)
        else
          let (r, tf) := fallbackStep env status
          (r, ev0 ++ tf)
      else (.ok (techDifficulties status), ev0)
    else
      match body with
      | .error e => (.error e, ev0)
      | .ok modelMsg =>
        let toolCalls := modelMsg.toolCalls
        let history := baseMsgs ++ [Msg.assistant modelMsg]
        if leakMarkers.any (fun m => containsSubstr modelMsg.content m) then
          if hasAnyKeyword newsKeywordsMarker env.query then
            match directNewsAttempt env stripQueryMarker with
            | (some answer, tr) => (.ok answer, ev0 ++ tr)
            | (Option.none, tr) => (.ok apologyMsg, ev0 ++ tr)
          else (.ok apologyMsg, ev0)
        else if toolCalls.isEmpty then
          let (r, tr) := simpleLLMCall env.natural baseMsgs
          (r, ev0 ++ tr)
        else
          match runToolLoop env.bridge toolCalls with
          | (.error e, tr) => (.error e, ev0 ++ tr)
          | (.ok toolMsgs, tr) =>
            let (r, tf) := simpleLLMCall env.final (history ++ toolMsgs)
            (r, ev0 ++ tr ++ tf)

/-- `process_query` including its top-level `except Exception` handler
(agent.py lines 303-305), in `Except` form: an `.error` outcome would
mean an exception escaping to the caller.  Every modelled exception is
an `Exception` subclass, so the handler converts each one to the
generic error reply. -/
def processQueryCaught (env : Env) : Except PyExc String :=
  match (processQueryE env).1 with
  | .ok s => .ok s
  | .error e => .ok ("An error occurred: " ++ e.str)

/-- The reply string of a `process_query` run together with its trace. -/
def processQuery (env : Env) : String × List TraceEv :=
  match processQueryE env with
  | (.ok s, tr) => (s, tr)
  | (.error e, tr) => ("An error occurred: " ++ e.str, tr)

/-- Number of chat-completion requests made with the tool schema
attached. -/
def countToolAttempts (tr : List TraceEv) : Nat :=
  (tr.filter (fun e => match e with | .llmCall true _ => true | _ => false)).length

/-- Number of chat-completion requests made in a run. -/
def countLlmCalls (tr : List TraceEv) : Nat :=
  (tr.filter (fun e => match e with | .llmCall _ _ => true | _ => false)).length

/-- Number of collaborator search calls made in a run. -/
def countSearchCalls (tr : List TraceEv) : Nat :=
  (tr.filter (fun e => match e with | .searchCall _ _ _ => true | _ => false)).length

/-- The arguments actually handed to the tool body: `.absent` parses as
the empty mapping (`json.loads("{}")`). -/
def argsValueD : ArgsField → NewsArgs
  | .absent => {}
  | .ok a => a
  | .malformed _ => {}

/-- Whether the arguments JSON of a tool call is undecodable. -/
def ArgsField.isMalformed : ArgsField → Bool
  | .malformed _ => true
  | _ => false

/-- The exception (if any) that the `try` body of one tool-loop iteration
raises for a given call with already-parsed arguments. -/
def toolExecError (bridge : Option NewsBridgeObj) (a : NewsArgs) (tc : ToolCall) :
    Option PyExc :=
  if newsToolNames.contains tc.name then
    match (callNewsToolT bridge tc.name a).1 with
    | .ok _ => Option.none
    | .error e => some e
  else some (.valueError ("Unsupported tool: " ++ tc.name))

/-!
## agent.py module initialization — the news bridge singleton

`news_bridge = NewsBridge(api_key=MEDIACLOUD_API_KEY,
collection_ids=MEDIACLOUD_COLLECTION_IDS) if MEDIACLOUD_API_KEY else None`
(agent.py line 52), against `NewsBridge.__init__(self, api_key)`
(news_bridge.py line 7), which declares no `collection_ids` parameter.
Python keyword-argument binding is embedded for this call.
-/

/-- Named parameters of `NewsBridge.__init__` besides `self`
(news_bridge.py line 7). -/
def newsBridgeInitParams : List String := ["api_key"]

/-- Python keyword-argument binding for a call made entirely with
keyword arguments: an unexpected keyword raises `TypeError`, as does a
missing required parameter.  (Python quotes the offending name in its
message; the quotes are omitted here.) -/
def bindKwargs (params : List String) (kwargs : List String) : Except PyExc Unit :=
  match kwargs.find? (fun k => !params.contains k) with
  | some k => .error (.typeError ("NewsBridge.__init__ got an unexpected keyword argument " ++ k))
  | Option.none =>
    match params.find? (fun p => !kwargs.contains p) with
    | some p => .error (.typeError ("NewsBridge.__init__ missing required argument " ++ p))
    | Option.none => .ok ()

/-- A successfully constructed `NewsBridge` instance, were the call to
bind. -/
structure NewsBridgeHandle where
  api_key : String
deriving DecidableEq, Repr

/-- The module-level `news_bridge` computation of agent.py line 52:
`None` when the key is unset or empty (Python truthiness), otherwise
the keyword call `NewsBridge(api_key=..., collection_ids=...)`. -/
def moduleNewsBridge (mediacloudApiKey : Option String) :
    Except PyExc (Option NewsBridgeHandle) :=
  match mediacloudApiKey with
  | Option.none => .ok Option.none
  | some k =>
    if k = "" then .ok Option.none
    else
      match bindKwargs newsBridgeInitParams ["api_key", "collection_ids"] with
      | .error e => .error e
      | .ok _ => .ok (some { api_key := k })

/-!
## Basic lemmas about the embedding
-/

theorem serializeDatetimeObjects_str (s : String) :
    serializeDatetimeObjects (.str s) = .str s := by
  simp [serializeDatetimeObjects]

theorem serializeDatetimeObjects_bool (b : Bool) :
    serializeDatetimeObjects (.bool b) = .bool b := by
  simp [serializeDatetimeObjects]

theorem serializeDatetimeObjects_dict (kvs : List (String × PyVal)) :
    serializeDatetimeObjects (.dict kvs)
      = .dict (kvs.map (fun p => (p.1, serializeDatetimeObjects p.2))) := by
  rw [serializeDatetimeObjects]
  exact congrArg PyVal.dict
    (List.attach_map_coe kvs (fun q => (q.1, serializeDatetimeObjects q.2)))

theorem serializeDatetimeObjects_list (xs : List PyVal) :
    serializeDatetimeObjects (.list xs) = .list (xs.map serializeDatetimeObjects) := by
  rw [serializeDatetimeObjects]
  exact congrArg PyVal.list (List.attach_map_coe xs serializeDatetimeObjects)

/-- Serialization does not change a story dict that is already all
strings and booleans, which is the shape `NewsBridge` produces. -/
theorem serialize_formattedStory (s : FormattedStory) :
    serializeDatetimeObjects s.toPyVal = s.toPyVal := by
  rw [FormattedStory.toPyVal, serializeDatetimeObjects_dict]
  simp [serializeDatetimeObjects_str, serializeDatetimeObjects_bool]

/-!
## Claims
-/

/-- Claim C1: for every input query and every combination of upstream
failures (transport errors raised by the HTTP client, error statuses,
undecodable model output, a missing news configuration, collaborator
and tool errors), `process_query` never lets an exception escape to its
caller: the run always terminates in an `.ok` reply string, every
failure path having been converted to a user-facing message. -/
theorem c1_process_query_never_raises (env : Env) :
    (processQueryCaught env).isOk = true := by
  unfold processQueryCaught
  cases h : (processQueryE env).1 <;> rfl

/-- Claim C4 counterexample: a single category with three pattern hits
is classified "moderate" by `_assess_severity`, not "severe" as the
spec test vector asserts (the severe branch in the code requires more than
two matched categories). -/
theorem c4_counterexample :
    assessSeverity [("catA", ["p1", "p2", "p3"])] = "moderate"
    ∧ assessSeverity [("catA", ["p1", "p2", "p3"])] ≠ "severe" := by
  refine ⟨rfl, by decide⟩

/-- Claim C4 (amended): the severity vector as the code computes it —
the empty mapping is "none", one category with one hit is "mild", two
categories with one hit each is "moderate", one category with three
hits is "moderate" (not "severe"), and three matched categories are
"severe". -/
theorem c4_severity_vector :
    assessSeverity [] = "none"
    ∧ assessSeverity [("catA", ["p1"])] = "mild"
    ∧ assessSeverity [("catA", ["p1"]), ("catB", ["p2"])] = "moderate"
    ∧ assessSeverity [("catA", ["p1", "p2", "p3"])] = "moderate"
    ∧ assessSeverity [("catA", ["p1"]), ("catB", ["p2"]), ("catC", ["p3"])] = "severe" :=
  ⟨rfl, rfl, rfl, rfl, rfl⟩

/-- Claim C8 counterexample: for the empty AnalysisResult (no category
matched), `filter_and_suggest` bypasses `suggest_alternatives` and
returns a SuggestionSet whose `philosophical_insights` list is empty,
so it does not contain the fixed insight strings. -/
theorem c8_counterexample :
    (filterAndSuggestFrom [] "hello" []).suggestions.philosophical_insights = []
    ∧ ¬ ("Consider the humanity and dignity of all people involved"
          ∈ (filterAndSuggestFrom [] "hello" []).suggestions.philosophical_insights) := by
  refine ⟨rfl, ?_⟩
  intro hmem
  have h : (filterAndSuggestFrom ([] : List (String × SuggEntry)) "hello"
      []).suggestions.philosophical_insights = [] := rfl
  rw [h] at hmem
  exact List.not_mem_nil _ hmem

/-- Claim C8 (amended): `suggest_alternatives` appends the fixed
philosophical insights for every AnalysisResult, the empty one
included; but the composed result of `filter_and_suggest` carries them
only when at least one category matched, because the empty result skips
the composer. -/
theorem c8_insights_amended (table : List (String × SuggEntry)) (text : String)
    (detected : List (String × List String)) :
    (suggestAlternatives table text detected).philosophical_insights
      = philosophicalInsightsFixed
    ∧ (detected ≠ [] →
        (filterAndSuggestFrom table text detected).suggestions.philosophical_insights
          = philosophicalInsightsFixed) := by
  have hmain : (suggestAlternatives table text detected).philosophical_insights
      = philosophicalInsightsFixed := by
    show dedupKeepFirst ([] ++ philosophicalInsightsFixed) = philosophicalInsightsFixed
    rfl
  refine ⟨hmain, fun h => ?_⟩
  have hne : detected.isEmpty = false := by
    cases detected with
    | nil => exact absurd rfl h
    | cons a l => rfl
  simp [filterAndSuggestFrom, hne, hmain]

/-- Claim C8 witness: a concrete nonempty AnalysisResult for which both
the composer and the composed pipeline carry the fixed insights. -/
theorem c8_insights_witness :
    (suggestAlternatives [] "x" [("racist_language", ["p"])]).philosophical_insights
      = philosophicalInsightsFixed
    ∧ (filterAndSuggestFrom [] "x"
        [("racist_language", ["p"])]).suggestions.philosophical_insights
      = philosophicalInsightsFixed := by
  have h := c8_insights_amended [] "x" [("racist_language", ["p"])]
  exact ⟨h.1, h.2 (by decide)⟩

/-- Claim C10: for every nonempty MEDIACLOUD_API_KEY, the module-level
construction of the news bridge passes a `collection_ids` keyword that
`NewsBridge.__init__` does not accept, so it raises `TypeError`; hence
no run of the module-level computation ever yields a constructed
bridge. -/
theorem c10_collection_ids_type_error (k : String) (h : k ≠ "") :
    moduleNewsBridge (some k)
      = .error (.typeError "NewsBridge.__init__ got an unexpected keyword argument collection_ids")
    ∧ ∀ inp r, moduleNewsBridge inp = .ok r → r = Option.none := by
  constructor
  · simp only [moduleNewsBridge]
    rw [if_neg h]
    rfl
  · intro inp r hr
    cases inp with
    | none =>
      simp [moduleNewsBridge] at hr
      exact hr.symm
    | some k2 =>
      by_cases hk : k2 = ""
      · simp [moduleNewsBridge, hk] at hr
        exact hr.symm
      · simp [moduleNewsBridge, hk, bindKwargs, newsBridgeInitParams] at hr

/-- Claim C10 witness: the concrete key "x". -/
theorem c10_witness :
    moduleNewsBridge (some "x")
      = .error (.typeError "NewsBridge.__init__ got an unexpected keyword argument collection_ids") :=
  (c10_collection_ids_type_error "x" (by decide)).1

/-- A collaborator that raises a rate-limit error on every attempt. -/
def rateLimitedBridge : NewsBridgeObj :=
  ⟨fun _ _ _ => .error (.rateLimited "rate limit exceeded")⟩

/-- Claim C2 counterexample: against a collaborator that raises
RateLimited on every attempt, `call_news_tool` raises after exactly one
search attempt (not the claimed 3), with no backoff sleeps, and the
raised error is a `ValueError` wrapping the original text. -/
theorem c2_counterexample :
    (callNewsToolT (some rateLimitedBridge) "search_news" {}).1
      = .error (.valueError "Failed to fetch news data: rate limit exceeded")
    ∧ countSearchCalls (callNewsToolT (some rateLimitedBridge) "search_news" {}).2 = 1
    ∧ countSearchCalls (callNewsToolT (some rateLimitedBridge) "search_news" {}).2 ≠ 3 :=
  ⟨rfl, rfl, by decide⟩

/-- Claim C2 (amended): on every collaborator error — RateLimited
included — `call_news_tool` makes exactly one search attempt and raises
immediately, as `ValueError("Failed to fetch news data: ...")` carrying
the original error text; there is no retry and no backoff. -/
theorem c2_single_attempt_amended (e : PyExc) (args : NewsArgs)
    (hcid : args.collectionIds = Option.none) :
    (callNewsToolT (some ⟨fun _ _ _ => .error e⟩) "search_news" args).1
      = .error (.valueError ("Failed to fetch news data: " ++ e.str))
    ∧ countSearchCalls
        (callNewsToolT (some ⟨fun _ _ _ => .error e⟩) "search_news" args).2 = 1 := by
  unfold callNewsToolT
  simp [hcid, runBridgeSearch, countSearchCalls]

/-- Claim C2 witness: a concrete RateLimited error and empty argument
mapping. -/
theorem c2_single_attempt_witness :
    (callNewsToolT (some ⟨fun _ _ _ => .error (.rateLimited "429")⟩) "search_news" {}).1
      = .error (.valueError ("Failed to fetch news data: " ++ (PyExc.rateLimited "429").str))
    ∧ countSearchCalls
        (callNewsToolT (some ⟨fun _ _ _ => .error (.rateLimited "429")⟩) "search_news" {}).2 = 1 :=
  c2_single_attempt_amended (.rateLimited "429") {} rfl

/-- Serialization is the identity on lists of bridge-formatted stories. -/
theorem serialize_formatted_list (l : List FormattedStory) :
    (l.map FormattedStory.toPyVal).map serializeDatetimeObjects
      = l.map FormattedStory.toPyVal := by
  rw [List.map_map]
  exact List.map_congr_left (fun s _ => serialize_formattedStory s)

/-- Claim C3: for every argument mapping whose `max_stories` is absent
or greater than 5, and every story list the search collaborator
returns, any list `call_news_tool` returns has at most 5 entries and is
a prefix of the collaborator list (same entries, same order); and
when `collection_ids` is absent the returned list is exactly the first
five collaborator stories. -/
theorem c3_max_stories_cap (args : NewsArgs)
    (hms : args.maxStories = Option.none ∨ ∃ m, args.maxStories = some m ∧ 5 < m)
    (stories : List FormattedStory) :
    (∀ l, (callNewsToolT (some ⟨fun _ _ _ => .ok (stories.map FormattedStory.toPyVal)⟩)
        "search_news" args).1 = .ok l →
      l.length ≤ 5 ∧ List.IsPrefix l (stories.map FormattedStory.toPyVal))
    ∧ (args.collectionIds = Option.none →
        (callNewsToolT (some ⟨fun _ _ _ => .ok (stories.map FormattedStory.toPyVal)⟩)
          "search_news" args).1
          = .ok ((stories.map FormattedStory.toPyVal).take 5)) := by
  have hslice : pySliceTo (stories.map FormattedStory.toPyVal) 5
      = (stories.map FormattedStory.toPyVal).take 5 := by
    rw [pySliceTo, if_pos (by norm_num)]
    rfl
  have hser : ((stories.map FormattedStory.toPyVal).take 5).map serializeDatetimeObjects
      = (stories.map FormattedStory.toPyVal).take 5 := by
    rw [← List.map_take, serialize_formatted_list]
  have hok : ∀ q db ms,
      runBridgeSearch ⟨fun _ _ _ => .ok (stories.map FormattedStory.toPyVal)⟩ q db ms
        = (.ok ((stories.map FormattedStory.toPyVal).take 5),
           [TraceEv.searchCall q db ms]) := by
    intro q db ms
    simp [runBridgeSearch, hslice, hser]
  have hgood : args.collectionIds = Option.none ∨
      (∃ cids, args.collectionIds = some cids ∧ cids.isEmpty) ∨
      (∃ cids, args.collectionIds = some cids ∧ ¬ cids.isEmpty) := by
    rcases h : args.collectionIds with _ | cids
    · exact Or.inl rfl
    · by_cases hc : cids.isEmpty
      · exact Or.inr (Or.inl ⟨cids, rfl, hc⟩)
      · exact Or.inr (Or.inr ⟨cids, rfl, hc⟩)
  have hval : ∀ hcid : args.collectionIds = Option.none,
      (callNewsToolT (some ⟨fun _ _ _ => .ok (stories.map FormattedStory.toPyVal)⟩)
        "search_news" args).1
        = .ok ((stories.map FormattedStory.toPyVal).take 5) := by
    intro hcid
    unfold callNewsToolT
    simp [hcid, hok]
  refine ⟨?_, hval⟩
  intro l hl
  have hlval : l = (stories.map FormattedStory.toPyVal).take 5 := by
    rcases hgood with hcid | ⟨cids, hcid, hc⟩ | ⟨cids, hcid, hc⟩
    · rw [hval hcid] at hl
      exact (Except.ok.inj hl).symm
    · unfold callNewsToolT at hl
      simp [hcid, hc, hok] at hl
      exact hl.symm
    · unfold callNewsToolT at hl
      simp [hcid, hc] at hl
  rw [hlval]
  exact ⟨List.length_take_le 5 _, List.take_prefix 5 _⟩

/-- A bridge-shaped story used by concrete instances. -/
def mkFormattedStory (t : String) : FormattedStory :=
  { stories_id := t, title := t, url := t, publish_date := "2024-01-01"
    media_name := t, media_url := t, language := "en"
    indexed_date := "2024-01-01T00:00:00", ap_syndicated := false }

/-- Six collaborator stories for the C3 witness. -/
def c3Stories : List FormattedStory :=
  [mkFormattedStory "s1", mkFormattedStory "s2", mkFormattedStory "s3",
   mkFormattedStory "s4", mkFormattedStory "s5", mkFormattedStory "s6"]

/-- Claim C3 witness: `max_stories = 7` with six collaborator stories
yields exactly the first five, in order. -/
theorem c3_max_stories_witness :
    (callNewsToolT (some ⟨fun _ _ _ => .ok (c3Stories.map FormattedStory.toPyVal)⟩)
        "search_news" { maxStories := some 7 }).1
      = .ok ((c3Stories.map FormattedStory.toPyVal).take 5)
    ∧ ((c3Stories.map FormattedStory.toPyVal).take 5).length ≤ 5
    ∧ List.IsPrefix ((c3Stories.map FormattedStory.toPyVal).take 5)
        (c3Stories.map FormattedStory.toPyVal) := by
  have h := c3_max_stories_cap { maxStories := some 7 }
    (Or.inr ⟨7, rfl, by norm_num⟩) c3Stories
  have heq := h.2 rfl
  exact ⟨heq, (h.1 _ heq).1, (h.1 _ heq).2⟩

/-- Claim C9: whenever the underlying MediaCloud request fails — a
timeout, a connection failure, HTTP 401/403, any 4xx/5xx status, an
undecodable or unprocessable body, or an API-client exception — the
news client neither raises nor returns an error value: it returns the
locally fabricated mock stories, a nonempty list shaped like real
search results. -/
theorem c9_mock_stories_on_failure (query : String) (menv : MockEnv) (m : String)
    (status : Nat) (body : Except PyExc PyVal) (lim : Option Int) :
    makeApiRequestDirect .timeout query menv = (createMockStories menv query 3, Option.none)
    ∧ makeApiRequestDirect (.reqError m) query menv
        = (createMockStories menv query 3, Option.none)
    ∧ (400 ≤ status ∨ status = 401 ∨ status = 403 →
        makeApiRequestDirect (.resp status body) query menv
          = (createMockStories menv query 3, Option.none))
    ∧ (∀ e, body = .error e →
        makeApiRequestDirect (.resp status body) query menv
          = (createMockStories menv query 3, Option.none))
    ∧ makeApiRequestWithClient (.mcError m) query menv lim
        = (createMockStories menv query (pyOrInt lim 3), Option.none)
    ∧ makeApiRequestWithClient (.otherError m) query menv lim
        = (createMockStories menv query (pyOrInt lim 3), Option.none)
    ∧ createMockStories menv query 3 ≠ [] := by
  refine ⟨rfl, rfl, ?_, ?_, rfl, rfl, ?_⟩
  · rintro (h | h | h)
    · by_cases h1 : status = 403
      · subst h1; rfl
      · by_cases h2 : status = 401
        · subst h2; rfl
        · simp [makeApiRequestDirect, directTryBody, raiseForStatus, h1, h2, h]
    · subst h; rfl
    · subst h; rfl
  · intro e he
    subst he
    by_cases h1 : status = 403
    · subst h1; rfl
    · by_cases h2 : status = 401
      · subst h2; rfl
      · by_cases h3 : 400 ≤ status
        · simp [makeApiRequestDirect, directTryBody, raiseForStatus, h1, h2, h3]
        · simp [makeApiRequestDirect, directTryBody, raiseForStatus, h1, h2, h3]
  · intro h
    have hl : (createMockStories menv query 3).length = 3 := rfl
    rw [h] at hl
    exact absurd hl (by decide)

/-- A fixed mock environment for concrete instances. -/
def mockEnvW : MockEnv :=
  ⟨fun _ => "2024-01-01", fun _ => "2024-01-01T00:00:00", fun _ => 0⟩

/-- Claim C9 witness: a 500 response on the direct path and an
`MCException` on the client path (with `limit = 5`) both yield the mock
stories. -/
theorem c9_mock_stories_witness :
    makeApiRequestDirect (.resp 500 (.ok (.dict []))) "energy" mockEnvW
      = (createMockStories mockEnvW "energy" 3, Option.none)
    ∧ makeApiRequestWithClient (.mcError "Access forbidden") "energy" mockEnvW (some 5)
      = (createMockStories mockEnvW "energy" (pyOrInt (some 5) 3), Option.none)
    ∧ createMockStories mockEnvW "energy" 3 ≠ [] := by
  have h := c9_mock_stories_on_failure "energy" mockEnvW "Access forbidden" 500
    (.ok (.dict [])) (some 5)
  exact ⟨h.2.2.1 (Or.inl (by norm_num)), h.2.2.2.2.1, h.2.2.2.2.2.2⟩

/-- An environment whose initial chat-completion attempt returns HTTP
500 on every attempt, whose query carries no news-intent keyword, and
whose fallback no-tools request succeeds. -/
def fiveHundredEnv : Env :=
  { query := "hello there"
  , systemPrompt := "sys"
  , inquiry := "inq"
  , initial := fun _ => .resp 500 (.error (.jsonDecodeError "unused"))
  , fallback := .resp 200 (.ok { content := "fallback answer", toolCalls := [] })
  , natural := .raise (.connectionError "unused")
  , final := .raise (.connectionError "unused")
  , bridge := Option.none }

/-- Claim C5 counterexample: with the LLM returning HTTP 500 on every
attempt, the orchestrator makes exactly one tools-attached request — it
does not retry up to 2 attempts — before returning the fallback
content of the fallback response. -/
theorem c5_counterexample :
    (processQuery fiveHundredEnv).1 = "fallback answer"
    ∧ countToolAttempts (processQuery fiveHundredEnv).2 = 1
    ∧ countToolAttempts (processQuery fiveHundredEnv).2 ≠ 2 :=
  ⟨rfl, rfl, by decide⟩

/-- Claim C5 (amended): on HTTP 500 the orchestrator does not retry the
tools request; when the query carries no news-intent keyword it issues
a single fallback no-tools request, and when that fallback succeeds it
returns the content of the fallback response rather than an error string —
one tools-attached attempt and two chat-completion requests in all. -/
theorem c5_no_retry_fallback (env : Env) (b : Except PyExc LLMMsg) (m : LLMMsg)
    (h1 : env.initial 0 = .resp 500 b)
    (h2 : hasAnyKeyword newsKeywords500 env.query = false)
    (h3 : env.fallback = .resp 200 (.ok m)) :
    (processQuery env).1 = m.content
    ∧ countToolAttempts (processQuery env).2 = 1
    ∧ countLlmCalls (processQuery env).2 = 2 := by
  have hE : processQueryE env
      = (.ok m.content, [TraceEv.llmCall true env.baseMessages,
                         TraceEv.llmCall false env.baseMessages]) := by
    unfold processQueryE
    rw [h1]
    simp [h2, fallbackStep, h3]
  simp [processQuery, hE, countToolAttempts, countLlmCalls]

/-- Claim C5 witness: the concrete persistent-500 environment. -/
theorem c5_no_retry_witness :
    (processQuery fiveHundredEnv).1
      = ({ content := "fallback answer", toolCalls := [] } : LLMMsg).content
    ∧ countToolAttempts (processQuery fiveHundredEnv).2 = 1
    ∧ countLlmCalls (processQuery fiveHundredEnv).2 = 2 :=
  c5_no_retry_fallback fiveHundredEnv (.error (.jsonDecodeError "unused"))
    { content := "fallback answer", toolCalls := [] } rfl (by decide) rfl

/-- An environment whose model response leaks raw tool syntax while the
news bridge is unconfigured, for a query with news-intent keywords. -/
def markerEnvUnconfigured : Env :=
  { query := "latest news about energy"
  , systemPrompt := "sys"
  , inquiry := "inq"
  , initial := fun _ => .resp 200 (.ok { content := "<ÔΩútool junk", toolCalls := [] })
  , fallback := .raise (.connectionError "unused")
  , natural := .raise (.connectionError "unused")
  , final := .raise (.connectionError "unused")
  , bridge := Option.none }

/-- Claim C6 counterexample: the model leaks a raw tool-call marker and
the query contains news-intent keywords, yet — the news bridge being
unconfigured, so the direct tool invocation raises — the orchestrator
returns the fixed apology string, not a templated Markdown list. -/
theorem c6_counterexample :
    (processQuery markerEnvUnconfigured).1 = apologyMsg
    ∧ isPrefixChars "I found these relevant news stories for you:".data
        (processQuery markerEnvUnconfigured).1.data = false :=
  ⟨rfl, by decide⟩

/-- Claim C6 (amended): on a leaked raw tool-call marker, a query with
no news-intent keyword gets the fixed apology string; a query with a
news-intent keyword triggers a direct news-tool call on the
filler-stripped query, and then: a collaborator result with at least
one story yields the templated Markdown list with no further LLM
calls, an empty collaborator result yields the fixed not-found
message, and a raising tool call — whether the collaborator raises or
the news bridge is unconfigured — yields the fixed apology string. -/
theorem c6_marker_fallback (env : Env) (msg : LLMMsg)
    (h1 : env.initial 0 = .resp 200 (.ok msg))
    (h2 : leakMarkers.any (fun mk => containsSubstr msg.content mk) = true) :
    (hasAnyKeyword newsKeywordsMarker env.query = false →
      (processQuery env).1 = apologyMsg)
    ∧ (∀ stories : List PyVal, env.bridge = some ⟨fun _ _ _ => .ok stories⟩ →
        hasAnyKeyword newsKeywordsMarker env.query = true →
        stories ≠ [] →
        (processQuery env).1
            = formatStories ((pySliceTo stories 5).map serializeDatetimeObjects)
        ∧ countLlmCalls (processQuery env).2 = 1
        ∧ TraceEv.searchCall (some (markerSearchQuery env.query)) 7 5
            ∈ (processQuery env).2)
    ∧ (∀ stories : List PyVal, env.bridge = some ⟨fun _ _ _ => .ok stories⟩ →
        hasAnyKeyword newsKeywordsMarker env.query = true →
        stories = [] →
        (processQuery env).1 = notFoundMsg
        ∧ countLlmCalls (processQuery env).2 = 1)
    ∧ (∀ e : PyExc, env.bridge = some ⟨fun _ _ _ => .error e⟩ →
        hasAnyKeyword newsKeywordsMarker env.query = true →
        (processQuery env).1 = apologyMsg)
    ∧ (env.bridge = Option.none →
        hasAnyKeyword newsKeywordsMarker env.query = true →
        (processQuery env).1 = apologyMsg) := by
  refine ⟨?_, ?_, ?_, ?_, ?_⟩
  · intro hkw
    have hE : processQueryE env = (.ok apologyMsg, [TraceEv.llmCall true env.baseMessages]) := by
      unfold processQueryE
      rw [h1]
      simp [h2, hkw]
    simp [processQuery, hE]
  · intro stories hb hkw hne
    have hmr : ((pySliceTo stories 5).map serializeDatetimeObjects).isEmpty = false := by
      rcases stories with _ | ⟨x, t⟩
      · exact absurd rfl hne
      · rfl
    have hdna : directNewsAttempt env stripQueryMarker
        = (some (formatStories ((pySliceTo stories 5).map serializeDatetimeObjects)),
           [TraceEv.searchCall (some (markerSearchQuery env.query)) 7 5]) := by
      unfold directNewsAttempt
      rw [hb]
      simp [callNewsToolT, runBridgeSearch, hmr, markerSearchQuery, pyMin]
    have hE : processQueryE env
        = (.ok (formatStories ((pySliceTo stories 5).map serializeDatetimeObjects)),
           [TraceEv.llmCall true env.baseMessages,
            TraceEv.searchCall (some (markerSearchQuery env.query)) 7 5]) := by
      unfold processQueryE
      rw [h1]
      simp [h2, hkw, hdna]
    have hPQ : processQuery env
        = (formatStories ((pySliceTo stories 5).map serializeDatetimeObjects),
           [TraceEv.llmCall true env.baseMessages,
            TraceEv.searchCall (some (markerSearchQuery env.query)) 7 5]) := by
      simp [processQuery, hE]
    refine ⟨by rw [hPQ], by rw [hPQ]; rfl, ?_⟩
    rw [hPQ]
    exact List.mem_cons_of_mem _ (List.mem_cons_self _ _)
  · intro stories hb hkw hnil
    subst hnil
    have hdna : directNewsAttempt env stripQueryMarker
        = (some notFoundMsg,
           [TraceEv.searchCall (some (markerSearchQuery env.query)) 7 5]) := by
      unfold directNewsAttempt
      rw [hb]
      simp [callNewsToolT, runBridgeSearch, markerSearchQuery, pyMin, pySliceTo]
    have hE : processQueryE env
        = (.ok notFoundMsg,
           [TraceEv.llmCall true env.baseMessages,
            TraceEv.searchCall (some (markerSearchQuery env.query)) 7 5]) := by
      unfold processQueryE
      rw [h1]
      simp [h2, hkw, hdna]
    have hPQ : processQuery env
        = (notFoundMsg,
           [TraceEv.llmCall true env.baseMessages,
            TraceEv.searchCall (some (markerSearchQuery env.query)) 7 5]) := by
      simp [processQuery, hE]
    exact ⟨by rw [hPQ], by rw [hPQ]; rfl⟩
  · intro e hb hkw
    have hdna : directNewsAttempt env stripQueryMarker
        = (Option.none,
           [TraceEv.searchCall (some (markerSearchQuery env.query)) 7 5]) := by
      unfold directNewsAttempt
      rw [hb]
      simp [callNewsToolT, runBridgeSearch, markerSearchQuery, pyMin]
    have hE : processQueryE env
        = (.ok apologyMsg,
           [TraceEv.llmCall true env.baseMessages,
            TraceEv.searchCall (some (markerSearchQuery env.query)) 7 5]) := by
      unfold processQueryE
      rw [h1]
      simp [h2, hkw, hdna]
    simp [processQuery, hE]
  · intro hb hkw
    have hdna : directNewsAttempt env stripQueryMarker = (Option.none, []) := by
      unfold directNewsAttempt
      rw [hb]
      rfl
    have hE : processQueryE env
        = (.ok apologyMsg, [TraceEv.llmCall true env.baseMessages]) := by
      unfold processQueryE
      rw [h1]
      simp [h2, hkw, hdna]
    simp [processQuery, hE]

/-- An environment whose model response leaks a raw marker, for a
keyword query, with a configured collaborator returning one story. -/
def markerEnvConfigured : Env :=
  { query := "search news about energy"
  , systemPrompt := "sys"
  , inquiry := "inq"
  , initial := fun _ => .resp 200 (.ok { content := "tool_calls_begin junk", toolCalls := [] })
  , fallback := .raise (.connectionError "unused")
  , natural := .raise (.connectionError "unused")
  , final := .raise (.connectionError "unused")
  , bridge := some ⟨fun _ _ _ => .ok [(mkFormattedStory "w1").toPyVal]⟩ }

/-- Like `markerEnvConfigured`, but the collaborator returns no
stories. -/
def markerEnvEmpty : Env :=
  { query := "search news about energy"
  , systemPrompt := "sys"
  , inquiry := "inq"
  , initial := fun _ => .resp 200 (.ok { content := "tool_calls_begin junk", toolCalls := [] })
  , fallback := .raise (.connectionError "unused")
  , natural := .raise (.connectionError "unused")
  , final := .raise (.connectionError "unused")
  , bridge := some ⟨fun _ _ _ => .ok []⟩ }

/-- Like `markerEnvConfigured`, but the collaborator raises. -/
def markerEnvRaising : Env :=
  { query := "search news about energy"
  , systemPrompt := "sys"
  , inquiry := "inq"
  , initial := fun _ => .resp 200 (.ok { content := "tool_calls_begin junk", toolCalls := [] })
  , fallback := .raise (.connectionError "unused")
  , natural := .raise (.connectionError "unused")
  , final := .raise (.connectionError "unused")
  , bridge := some ⟨fun _ _ _ => .error (.mcException "boom")⟩ }

/-- Claim C6 witness: three concrete leaked-marker runs — a
collaborator returning one story yields the Markdown list with a
single LLM call and a search on the filler-stripped query, an empty
collaborator result yields the not-found message, and a raising
collaborator yields the apology string. -/
theorem c6_marker_witness :
    ((processQuery markerEnvConfigured).1
      = formatStories ((pySliceTo [(mkFormattedStory "w1").toPyVal] 5).map
          serializeDatetimeObjects)
    ∧ countLlmCalls (processQuery markerEnvConfigured).2 = 1
    ∧ TraceEv.searchCall (some (markerSearchQuery "search news about energy")) 7 5
        ∈ (processQuery markerEnvConfigured).2)
    ∧ (processQuery markerEnvEmpty).1 = notFoundMsg
    ∧ (processQuery markerEnvRaising).1 = apologyMsg :=
  ⟨(c6_marker_fallback markerEnvConfigured
      { content := "tool_calls_begin junk", toolCalls := [] } rfl (by decide)).2.1
      [(mkFormattedStory "w1").toPyVal] rfl (by decide) (List.cons_ne_nil _ _),
   ((c6_marker_fallback markerEnvEmpty
      { content := "tool_calls_begin junk", toolCalls := [] } rfl (by decide)).2.2.1
      [] rfl (by decide) rfl).1,
   (c6_marker_fallback markerEnvRaising
      { content := "tool_calls_begin junk", toolCalls := [] } rfl (by decide)).2.2.2.1
      (.mcException "boom") rfl (by decide)⟩

/-- When the `try` body of a tool call raises, the appended message is the
structured error payload keyed by the call id. -/
theorem execToolCallBody_error (bridge : Option NewsBridgeObj) (tc : ToolCall)
    (a : NewsArgs) (e : PyExc) (h : toolExecError bridge a tc = some e) :
    (execToolCallBody bridge tc a).1 = Msg.tool tc.id (toolErrorPayload e tc.name) := by
  unfold toolExecError at h
  unfold execToolCallBody
  by_cases hn : newsToolNames.contains tc.name
  · simp only [hn, if_true] at h ⊢
    rcases hcc : callNewsToolT bridge tc.name a with ⟨res, tr⟩
    rw [hcc] at h
    cases res with
    | ok r => simp at h
    | error e2 =>
      simp at h
      rw [h]
  · simp only [hn] at h ⊢
    simp at h ⊢
    rw [← h]

/-- When the arguments of every tool call decode, the loop succeeds and
returns one message per call, in order. -/
theorem runToolLoop_ok (bridge : Option NewsBridgeObj) (tcs : List ToolCall)
    (h : ∀ tc ∈ tcs, tc.args.isMalformed = false) :
    (runToolLoop bridge tcs).1
      = .ok (tcs.map (fun tc => (execToolCallBody bridge tc (argsValueD tc.args)).1)) := by
  induction tcs with
  | nil => rfl
  | cons tc rest ih =>
    have htc := h tc (List.mem_cons_self _ _)
    have hrest : ∀ t ∈ rest, t.args.isMalformed = false :=
      fun t ht => h t (List.mem_cons_of_mem _ ht)
    have hih := ih hrest
    rcases hr : runToolLoop bridge rest with ⟨res, trs⟩
    rw [hr] at hih
    simp at hih
    subst hih
    rcases ha : tc.args with _ | a | m
    · rcases hb : execToolCallBody bridge tc {} with ⟨m1, tr1⟩
      unfold runToolLoop
      simp [execToolCall, ha, hb, hr, argsValueD]
    · rcases hb : execToolCallBody bridge tc a with ⟨m1, tr1⟩
      unfold runToolLoop
      simp [execToolCall, ha, hb, hr, argsValueD]
    · rw [ha] at htc
      simp [ArgsField.isMalformed] at htc

/-- Claim C7: when the 200 response of the model carries tool calls (and no
leakage marker), each call whose execution raises — an unsupported tool
name, an unconfigured news key, or any collaborator error — contributes
a `tool`-role message keyed by its call id whose content is the
structured payload (human-readable message, status "failed", tool
name); the loop never propagates the error, a final no-tools request is
still issued over the full history, and its content becomes the
answer. -/
theorem c7_tool_error_payload (env : Env) (msg fm : LLMMsg)
    (h1 : env.initial 0 = .resp 200 (.ok msg))
    (h2 : leakMarkers.any (fun mk => containsSubstr msg.content mk) = false)
    (h3 : msg.toolCalls ≠ [])
    (h4 : ∀ tc ∈ msg.toolCalls, tc.args.isMalformed = false)
    (h5 : env.final = .resp 200 (.ok fm)) :
    (processQuery env).1 = fm.content
    ∧ ∃ tmsgs, (runToolLoop env.bridge msg.toolCalls).1 = .ok tmsgs
        ∧ TraceEv.llmCall false (env.baseMessages ++ [Msg.assistant msg] ++ tmsgs)
            ∈ (processQuery env).2
        ∧ ∀ tc ∈ msg.toolCalls, ∀ e,
            toolExecError env.bridge (argsValueD tc.args) tc = some e →
            Msg.tool tc.id (toolErrorPayload e tc.name) ∈ tmsgs := by
  have hloop0 := runToolLoop_ok env.bridge msg.toolCalls h4
  rcases hr : runToolLoop env.bridge msg.toolCalls with ⟨res, trl⟩
  rw [hr] at hloop0
  simp at hloop0
  subst hloop0
  have hne : msg.toolCalls.isEmpty = false := by
    rcases hmt : msg.toolCalls with _ | ⟨a, l⟩
    · exact absurd hmt h3
    · rfl
  have hfinal : simpleLLMCall env.final
      (env.baseMessages ++ Msg.assistant msg
        :: msg.toolCalls.map (fun tc => (execToolCallBody env.bridge tc (argsValueD tc.args)).1))
      = (.ok fm.content,
         [TraceEv.llmCall false (env.baseMessages ++ Msg.assistant msg
            :: msg.toolCalls.map (fun tc => (execToolCallBody env.bridge tc (argsValueD tc.args)).1))]) := by
    rw [h5]
    simp [simpleLLMCall, raiseForStatus]
  have hE : processQueryE env
      = (.ok fm.content,
         TraceEv.llmCall true env.baseMessages :: trl
           ++ [TraceEv.llmCall false (env.baseMessages ++ Msg.assistant msg
              :: msg.toolCalls.map (fun tc => (execToolCallBody env.bridge tc (argsValueD tc.args)).1))]) := by
    unfold processQueryE
    rw [h1]
    simp [h2, hne, hr, hfinal]
  have hPQ : processQuery env
      = (fm.content,
         TraceEv.llmCall true env.baseMessages :: trl
           ++ [TraceEv.llmCall false (env.baseMessages ++ Msg.assistant msg
              :: msg.toolCalls.map (fun tc => (execToolCallBody env.bridge tc (argsValueD tc.args)).1))]) := by
    simp [processQuery, hE]
  refine ⟨by rw [hPQ],
    msg.toolCalls.map (fun tc => (execToolCallBody env.bridge tc (argsValueD tc.args)).1),
    rfl, ?_, ?_⟩
  · rw [hPQ]
    simp
  · intro tc htc e he
    rw [← execToolCallBody_error env.bridge tc (argsValueD tc.args) e he]
    exact List.mem_map_of_mem _ htc

/-- An environment whose model requests one unsupported tool while the
news bridge is unconfigured, and whose final request succeeds. -/
def toolErrorEnv : Env :=
  { query := "q"
  , systemPrompt := "sys"
  , inquiry := "inq"
  , initial := fun _ => .resp 200 (.ok
      { content := "", toolCalls := [{ id := "call1", name := "bad_tool", args := .absent }] })
  , fallback := .raise (.connectionError "unused")
  , natural := .raise (.connectionError "unused")
  , final := .resp 200 (.ok { content := "final answer", toolCalls := [] })
  , bridge := Option.none }

/-- Claim C7 witness: a concrete run with one failing tool call — the
reply is the content of the final response and the error payload reaches the
history. -/
theorem c7_tool_error_witness :
    (processQuery toolErrorEnv).1
      = ({ content := "final answer", toolCalls := [] } : LLMMsg).content
    ∧ ∃ tmsgs, (runToolLoop toolErrorEnv.bridge
          ({ content := "", toolCalls := [{ id := "call1", name := "bad_tool", args := .absent }] } : LLMMsg).toolCalls).1
        = .ok tmsgs
        ∧ TraceEv.llmCall false (toolErrorEnv.baseMessages
            ++ [Msg.assistant { content := "", toolCalls := [{ id := "call1", name := "bad_tool", args := .absent }] }]
            ++ tmsgs)
            ∈ (processQuery toolErrorEnv).2
        ∧ ∀ tc ∈ ({ content := "", toolCalls := [{ id := "call1", name := "bad_tool", args := .absent }] } : LLMMsg).toolCalls,
            ∀ e, toolExecError toolErrorEnv.bridge (argsValueD tc.args) tc = some e →
            Msg.tool tc.id (toolErrorPayload e tc.name) ∈ tmsgs :=
  c7_tool_error_payload toolErrorEnv
    { content := "", toolCalls := [{ id := "call1", name := "bad_tool", args := .absent }] }
    { content := "final answer", toolCalls := [] }
    rfl (by decide) (by decide) (by decide) rfl

end NewsSynapse
